import Mathlib

/-!
Verification of the ASRock Industrial MCP product-search server.

Shallow embedding of the three source modules:
- `config.py`: the scraping configuration values that the claims mention.
- `server.py`: the WebDriver lifecycle state machine (`WebDriverManager`),
  the browser-driven scraper (`ProductScraper`), the orchestrator
  (`AsrockindServer.search_products`) and the tool boundary (`call_tool`).
- `fallback_scraper.py`: the requests-based fallback scraper.

External effects (the browser, HTTP, the DOM, randomness, sleeping) are
modelled by oracles passed as arguments, and the interesting control flow
(short-circuits, retries, backoff sleeps, launch attempts) is reflected in
explicit event traces so that claims about what is or is not invoked can be
stated.  Python strings are modelled as Lean strings with operations defined
over the character list so that concrete instances evaluate inside the
kernel.  Python dicts that accumulate specification entries are modelled as
association lists in insertion order (a later duplicate key in the source
overwrites; the list model keeps both, which is immaterial to the claims,
all of which quantify over produced entries or compare whole outputs on
duplicate-free inputs).
-/

namespace Asrockind

/- ---------------------------------------------------------------------- -/
/- Python string primitives, over the character list so they evaluate.    -/
/- ---------------------------------------------------------------------- -/

/-- Characters that Python `str.strip()` removes (ASCII whitespace). -/
def trimL (l : List Char) : List Char :=
  ((l.dropWhile Char.isWhitespace).reverse.dropWhile Char.isWhitespace).reverse

/-- Embedding of Python `s.strip()` and of BeautifulSoup `get_text(strip=True)`
applied to an already-extracted text. -/
def pyStrip (s : String) : String := ⟨trimL s.data⟩

/-- Embedding of Python `s.lower()` (ASCII case fold suffices here). -/
def pyLower (s : String) : String := ⟨s.data.map Char.toLower⟩

/-- Embedding of Python `len(s)` (code points). -/
def pyLen (s : String) : Nat := s.data.length

/-- Embedding of Python `s[:n]` for a nonnegative bound. -/
def pyTake (n : Nat) (s : String) : String := ⟨s.data.take n⟩

/-- Split a character list on whitespace runs, dropping empty pieces:
Python `s.split()`. -/
def splitWsL : List Char → List Char → List (List Char)
  | acc, [] => if acc = [] then [] else [acc.reverse]
  | acc, c :: cs =>
    if c.isWhitespace then
      (if acc = [] then [] else [acc.reverse]) ++ splitWsL [] cs
    else splitWsL (c :: acc) cs

/-- Embedding of Python `' '.join(s.split())`: collapse whitespace runs. -/
def pyNormalizeWs (s : String) : String :=
  ⟨(splitWsL [] s.data).intersperse [' '] |>.flatten⟩

/-- Does `pat` occur at the start of `l`? -/
def startsWithL : List Char → List Char → Bool
  | _, [] => true
  | [], _ :: _ => false
  | c :: cs, p :: ps => c = p && startsWithL cs ps

/-- Does `pat` occur anywhere in `l`?  Embedding of the CSS attribute
substring selector `[class*="..."]` and of Python `"x" in s`. -/
def containsSubL : List Char → List Char → Bool
  | [], pat => startsWithL [] pat
  | c :: cs, pat => startsWithL (c :: cs) pat || containsSubL cs pat

/-- Substring test on strings. -/
def containsSub (s pat : String) : Bool := containsSubL s.data pat.data

/-- Split a string into whitespace-separated class tokens, as BeautifulSoup
does for the `class` attribute when matching `tag.cls` selectors. -/
def classTokens (s : String) : List String :=
  (splitWsL [] s.data).map fun l => ⟨l⟩

/-- Split on `/` keeping empty pieces and take the final piece:
Python `url.split('/')[-1]`. -/
def splitSlashL : List Char → List Char → List (List Char)
  | acc, [] => [acc.reverse]
  | acc, c :: cs =>
    if c = '/' then acc.reverse :: splitSlashL [] cs
    else splitSlashL (c :: acc) cs

/-- Embedding of Python `url.split('/')[-1]`. -/
def lastSegment (url : String) : String :=
  ⟨(splitSlashL [] url.data).getLastD []⟩

/-- Embedding of `urllib.parse.urljoin(base, href)` for the shapes this
program produces: an absolute `href` is kept, a root-relative `href` is
appended to the scheme-plus-host base, anything else is joined with `/`.
The base URL carries no trailing slash (`https://www.asrockind.com`). -/
def urljoin (base href : String) : String :=
  if containsSub href "://" then href
  else if startsWithL href.data ['/'] then base ++ href
  else base ++ "/" ++ href

/- ---------------------------------------------------------------------- -/
/- config.py: the configuration values the claims depend on.              -/
/- ---------------------------------------------------------------------- -/

/-- `ScrapingConfig` fields used by the verified code paths.  Delay bounds
are kept abstract as naturals of tenths of seconds; their values never
influence control flow, only which sleep is performed, which the traces
record symbolically. -/
structure ScrapingConfig where
  max_retries : Nat
  max_products_per_search : Nat
deriving DecidableEq

/-- The defaults of `config.py` (`max_retries = 2`,
`max_products_per_search = 3`). -/
def defaultScrapingConfig : ScrapingConfig := ⟨2, 3⟩

/- ---------------------------------------------------------------------- -/
/- Data model: products and a block-level model of a parsed HTML page.    -/
/- ---------------------------------------------------------------------- -/

/-- `ProductInfo`: one scraped product. -/
structure Product where
  name : String
  url : String
  specifications : List (String × String)
deriving DecidableEq

/-- A block of a parsed product-detail page, in document order: a heading
element `h<level>` with its `class` attribute and text, a `table` with its
`class` attribute and the cell texts of each row (`td`/`th` in order), or a
description-like element with its `class` attribute and text.  This is the
flat fragment of the DOM that the extraction code inspects. -/
inductive Block where
  | heading (level : Nat) (classAttr : String) (text : String)
  | table (classAttr : String) (rows : List (List String))
  | descr (classAttr : String) (text : String)
deriving DecidableEq

/- ---------------------------------------------------------------------- -/
/- server.py: ProductScraper._extract_specifications                      -/
/- ---------------------------------------------------------------------- -/

/-- Walk the page in document order collecting each `table.table-spec`
paired with the category text of the nearest preceding `h3.title-sub`
(its stripped text, `""` when there is none): the
`soup.select('table.table-spec')` loop with `table.find_previous('h3',
class_='title-sub')` of `_extract_specifications`. -/
def serverTablesGo : String → List Block → List (String × List (List String))
  | _, [] => []
  | cur, b :: rest =>
    match b with
    | .heading lvl cls text =>
      serverTablesGo
        (if lvl = 3 ∧ (classTokens cls).contains "title-sub" then pyStrip text else cur)
        rest
    | .table cls rows =>
      if (classTokens cls).contains "table-spec" then
        (cur, rows) :: serverTablesGo cur rest
      else serverTablesGo cur rest
    | .descr _ _ => serverTablesGo cur rest

/-- The selected spec tables of a page with their categories. -/
def serverTables (doc : List Block) : List (String × List (List String)) :=
  serverTablesGo "" doc

/-- The row loop of `_extract_specifications`: a row contributes when it has
at least two cells and both the stripped key and the stripped value are
nonempty; the key is prefixed with `"<category> - "` when the category text
is nonempty. -/
def extractRows (category : String) (rows : List (List String)) :
    List (String × String) :=
  rows.filterMap fun cells =>
    if 2 ≤ cells.length then
      let key := pyStrip (cells.headD "")
      let value := pyStrip ((cells.drop 1).headD "")
      if key ≠ "" ∧ value ≠ "" then
        some (if category ≠ "" then category ++ " - " ++ key else key, value)
      else none
    else none

/-- `ProductScraper._extract_specifications`: all entries of all selected
tables, in document order. -/
def extract_specifications (doc : List Block) : List (String × String) :=
  ((serverTables doc).map fun p => extractRows p.1 p.2).flatten

/- ---------------------------------------------------------------------- -/
/- fallback_scraper.py: FallbackScraper._extract_specifications_simple    -/
/- ---------------------------------------------------------------------- -/

/-- Selector `table.table-spec, table[class*="spec"]` of the fallback
extractor. -/
def isFallbackSpecTable : Block → Bool
  | .table cls _ => (classTokens cls).contains "table-spec" || containsSub cls "spec"
  | _ => false

/-- Walk the page collecting each table matched by `isFallbackSpecTable`
with its category: the nearest preceding `h3` if any `h3` precedes it, else
the nearest preceding `h2`, else the nearest preceding `h4`, else `""`
(the `for heading in ['h3', 'h2', 'h4']: find_previous` loop, which takes
the stripped text of the first heading level that exists at all). -/
def fallbackTablesGo :
    Option String → Option String → Option String → List Block →
    List (String × List (List String))
  | _, _, _, [] => []
  | h3, h2, h4, b :: rest =>
    match b with
    | .heading lvl _cls text =>
      if lvl = 3 then fallbackTablesGo (some (pyStrip text)) h2 h4 rest
      else if lvl = 2 then fallbackTablesGo h3 (some (pyStrip text)) h4 rest
      else if lvl = 4 then fallbackTablesGo h3 h2 (some (pyStrip text)) rest
      else fallbackTablesGo h3 h2 h4 rest
    | .table cls rows =>
      if (classTokens cls).contains "table-spec" || containsSub cls "spec" then
        let category :=
          match h3 with
          | some t => t
          | none =>
            match h2 with
            | some t => t
            | none => h4.getD ""
        (category, rows) :: fallbackTablesGo h3 h2 h4 rest
      else fallbackTablesGo h3 h2 h4 rest
    | .descr _ _ => fallbackTablesGo h3 h2 h4 rest

/-- The fallback-selected spec tables of a page with their categories. -/
def fallbackTables (doc : List Block) : List (String × List (List String)) :=
  fallbackTablesGo none none none doc

/-- The row loop of `_extract_specifications_simple`: like the browser path
but additionally skipping rows whose lowercased key is `"specification"`
or `"feature"`. -/
def extractRowsSimple (category : String) (rows : List (List String)) :
    List (String × String) :=
  rows.filterMap fun cells =>
    if 2 ≤ cells.length then
      let key := pyStrip (cells.headD "")
      let value := pyStrip ((cells.drop 1).headD "")
      if key ≠ "" ∧ value ≠ "" ∧ pyLower key ≠ "specification" ∧ pyLower key ≠ "feature" then
        some (if category ≠ "" then category ++ " - " ++ key else key, value)
      else none
    else none

/-- First element matching `.product-desc, .overview, .description` whose
stripped text is nonempty and longer than 10 characters (the loop over
`desc_elements` with its `break`). -/
def firstDescText (doc : List Block) : Option String :=
  doc.findSome? fun b =>
    match b with
    | .descr cls text =>
      if (classTokens cls).contains "product-desc" ||
          (classTokens cls).contains "overview" ||
          (classTokens cls).contains "description" then
        let t := pyStrip text
        if t ≠ "" ∧ 10 < pyLen t then some t else none
      else none
    | _ => none

/-- The `specs` dict of `_extract_specifications_simple` after the table
loop: all entries of all fallback-selected tables, in document order. -/
def fallbackTableSpecs (doc : List Block) : List (String × String) :=
  ((fallbackTables doc).map fun p => extractRowsSimple p.1 p.2).flatten

/-- `FallbackScraper._extract_specifications_simple`: table entries first;
when none were produced, a single `Description` entry from the first
qualifying description block, truncated at 500 characters with an
appended `"..."` exactly when it is longer than 500 characters. -/
def extract_specifications_simple (doc : List Block) : List (String × String) :=
  if fallbackTableSpecs doc = [] then
    match firstDescText doc with
    | some t =>
      [("Description", if 500 < pyLen t then pyTake 500 t ++ "..." else t)]
    | none => []
  else fallbackTableSpecs doc

/- ---------------------------------------------------------------------- -/
/- Per-product scraping and the search-result loops of both scrapers.     -/
/- ---------------------------------------------------------------------- -/

/-- An `a.whole-link.d-block` search-result element: its `href` and the
text of its nested `div.product-title`, when present. -/
structure ProductLink where
  href : String
  titleText : Option String
deriving DecidableEq

/-- The product display name: the whitespace-normalised title text, falling
back to the last path segment of the resolved product URL. -/
def productName (base : String) (link : ProductLink) : String :=
  match link.titleText with
  | some t => pyNormalizeWs t
  | none => lastSegment (urljoin base link.href)

/-- `ProductScraper._scrape_single_product`: `detail` is the parsed detail
page when navigation succeeded, `none` when `safe_get` failed or an
exception was raised (the caller catches and skips either way). -/
def scrape_single_product (base : String) (link : ProductLink)
    (detail : Option (List Block)) : Option Product :=
  match detail with
  | none => none
  | some doc =>
    some ⟨productName base link, urljoin base link.href, extract_specifications doc⟩

/-- `FallbackScraper._scrape_single_product_fallback`: same skeleton with
the simpler extractor. -/
def fallback_scrape_single (base : String) (link : ProductLink)
    (detail : Option (List Block)) : Option Product :=
  match detail with
  | none => none
  | some doc =>
    some ⟨productName base link, urljoin base link.href,
          extract_specifications_simple doc⟩

/-- The indexed product loop shared by both scrapers: Python
`for i, link in enumerate(links)` appending each successfully scraped
product and skipping failures. -/
def enumFilterMap {α β : Type} (f : Nat → α → Option β) : Nat → List α → List β
  | _, [] => []
  | i, x :: xs =>
    match f i x with
    | some b => b :: enumFilterMap f (i + 1) xs
    | none => enumFilterMap f (i + 1) xs

/-- The observable outcome of rendering the search-results page on the
browser path. -/
structure SearchPage where
  /-- `safe_get` on the search URL succeeded. -/
  loaded : Bool
  /-- the `WebDriverWait` for `a.whole-link.d-block, div.no-result`
  succeeded (its timeout returns an empty result). -/
  waitOk : Bool
  /-- `div.no-result` is present in the parsed page. -/
  noResult : Bool
  /-- the `a.whole-link.d-block` elements, in document order. -/
  links : List ProductLink
deriving DecidableEq

/-- `ProductScraper.scrape_search_results`: empty on page-load failure, on
wait timeout and on the no-result marker; otherwise the per-product loop
over the links truncated to `max_products_per_search`. -/
def scrape_search_results (base : String) (page : SearchPage)
    (detail : Nat → Option (List Block)) (maxP : Nat) : List Product :=
  if !page.loaded then []
  else if !page.waitOk then []
  else if page.noResult then []
  else
    enumFilterMap (fun i link => scrape_single_product base link (detail i)) 0
      (page.links.take maxP)

/-- `FallbackScraper.search_products`: empty when the GET (or
`raise_for_status`) fails or the no-result marker is present; otherwise the
per-product loop over the links truncated to `max_products_per_search`.
There is no wait stage on this path. -/
def fallback_search_products (base : String) (pageOk : Bool) (noResult : Bool)
    (links : List ProductLink) (detail : Nat → Option (List Block))
    (maxP : Nat) : List Product :=
  if !pageOk then []
  else if noResult then []
  else
    enumFilterMap (fun i link => fallback_scrape_single base link (detail i)) 0
      (links.take maxP)

/- ---------------------------------------------------------------------- -/
/- server.py: WebDriverManager lifecycle state machine.                   -/
/- ---------------------------------------------------------------------- -/

/-- The mutable fields of `WebDriverManager`: whether `self.driver` is set
and the `_initialization_failed` poison flag. -/
structure DriverState where
  hasDriver : Bool
  failed : Bool
deriving DecidableEq

/-- Whether a `webdriver.Chrome(...)` launch succeeds or raises. -/
inductive LaunchOutcome where
  | success
  | exn
deriving DecidableEq

/-- Events of the driver layer: an actual launch attempt, an actual
`driver.get` navigation attempt, and a retry-delay sleep drawn from
`retry_delay_min..retry_delay_max`. -/
inductive DEvent where
  | launchAttempt
  | navAttempt
  | retrySleep
deriving DecidableEq

/-- `WebDriverManager.setup_driver`: skipped outright when poisoned; a
launch that raises sets the poison flag and reports failure; a launch that
succeeds installs a fresh driver. -/
def setup_driver (launch : LaunchOutcome) (s : DriverState) :
    Bool × DriverState × List DEvent :=
  if s.failed then (false, s, [])
  else
    match launch with
    | .success => (true, ⟨true, false⟩, [DEvent.launchAttempt])
    | .exn => (false, ⟨false, true⟩, [DEvent.launchAttempt])

/-- `WebDriverManager.is_driver_alive`: false when poisoned or driverless;
otherwise the result of the `driver.current_url` probe (`alive`). -/
def is_driver_alive (alive : Bool) (s : DriverState) : Bool :=
  if s.failed || !s.hasDriver then false else alive

/-- `WebDriverManager.ensure_driver`: relaunch lazily when there is no
driver or the liveness probe fails. -/
def ensure_driver (launch : LaunchOutcome) (alive : Bool) (s : DriverState) :
    Bool × DriverState × List DEvent :=
  if !s.hasDriver || !is_driver_alive alive s then setup_driver launch s
  else (true, s, [])

/-- The retry loop of `WebDriverManager.safe_get`: per attempt, ensure the
driver (an ensure failure returns false immediately), then navigate; a
navigation exception sleeps a retry delay and retries unless this was the
final attempt. -/
def safe_get_loop (launch : Nat → LaunchOutcome) (alive nav : Nat → Bool) :
    DriverState → Nat → Nat → Bool × DriverState × List DEvent
  | s, _, 0 => (false, s, [])
  | s, a, fuel + 1 =>
    let e := ensure_driver (launch a) (alive a) s
    if !e.1 then (false, e.2.1, e.2.2)
    else if nav a then (true, e.2.1, e.2.2 ++ [DEvent.navAttempt])
    else if fuel ≠ 0 then
      let r := safe_get_loop launch alive nav e.2.1 (a + 1) fuel
      (r.1, r.2.1, e.2.2 ++ [DEvent.navAttempt, DEvent.retrySleep] ++ r.2.2)
    else (false, e.2.1, e.2.2 ++ [DEvent.navAttempt])

/-- `WebDriverManager.safe_get`: returns false immediately when poisoned,
otherwise runs the retry loop for `max_retries` attempts. -/
def safe_get (launch : Nat → LaunchOutcome) (alive nav : Nat → Bool)
    (s : DriverState) (maxRetries : Nat) : Bool × DriverState × List DEvent :=
  if s.failed then (false, s, [])
  else safe_get_loop launch alive nav s 0 maxRetries

/-- `WebDriverManager.cleanup_driver`: quits and clears the driver; the
poison flag is untouched. -/
def cleanup_driver (s : DriverState) : DriverState :=
  ⟨false, s.failed⟩

/-- The operations that touch the manager state, with their oracles. -/
inductive DriverOp where
  | setupOp (launch : LaunchOutcome)
  | ensureOp (launch : LaunchOutcome) (alive : Bool)
  | getOp (launch : Nat → LaunchOutcome) (alive nav : Nat → Bool) (maxRetries : Nat)
  | cleanupOp

/-- Apply one operation to the state. -/
def applyDriverOp (op : DriverOp) (s : DriverState) : DriverState :=
  match op with
  | .setupOp l => (setup_driver l s).2.1
  | .ensureOp l a => (ensure_driver l a s).2.1
  | .getOp l a n m => (safe_get l a n s m).2.1
  | .cleanupOp => cleanup_driver s

/-- Run a sequence of operations. -/
def runDriverOps (ops : List DriverOp) (s : DriverState) : DriverState :=
  ops.foldl (fun st op => applyDriverOp op st) s

/- ---------------------------------------------------------------------- -/
/- server.py: AsrockindServer.search_products (the orchestrator).         -/
/- ---------------------------------------------------------------------- -/

/-- The outcome of one scraper invocation as the orchestrator sees it:
a returned list, or an exception that escapes the call. -/
inductive ScrapeOutcome where
  | ok (products : List Product)
  | exn
deriving DecidableEq

/-- Per-attempt oracles for the two scraping paths. -/
structure SearchEnv where
  browser : Nat → ScrapeOutcome
  fallback : Nat → ScrapeOutcome

/-- Events of one orchestrated search: the pre-search delay sleep
(`search_delay_min..search_delay_max`), an invocation of the browser
scraper, an invocation of the fallback scraper, and the doubled backoff
sleep (`retry_delay_min * 2..retry_delay_max * 2`). -/
inductive SEvent where
  | searchDelay
  | browserCall
  | fallbackCall
  | retryBackoff
deriving DecidableEq

/-- The attempt loop of `AsrockindServer.search_products`, from attempt `a`
with `fuel` attempts remaining.  Per attempt: sleep the pre-search delay;
when not poisoned, call the browser scraper (its exceptions are caught by
the inner handler) and return any non-empty result at once; then call the
fallback scraper and return any non-empty result at once; an empty fallback
result simply proceeds to the next attempt, while a fallback exception is
caught by the outer handler, which sleeps the doubled backoff first unless
this was the final attempt. -/
def search_attempts (env : SearchEnv) (poisoned : Bool) :
    Nat → Nat → List Product × List SEvent
  | _, 0 => ([], [])
  | a, fuel + 1 =>
    let bTrace : List SEvent :=
      if poisoned then [SEvent.searchDelay]
      else [SEvent.searchDelay, SEvent.browserCall]
    let bRes : Option (List Product) :=
      if poisoned then none
      else
        match env.browser a with
        | .ok ps => if ps.isEmpty then none else some ps
        | .exn => none
    match bRes with
    | some ps => (ps, bTrace)
    | none =>
      match env.fallback a with
      | .ok ps =>
        if ps.isEmpty then
          let r := search_attempts env poisoned (a + 1) fuel
          (r.1, bTrace ++ [SEvent.fallbackCall] ++ r.2)
        else (ps, bTrace ++ [SEvent.fallbackCall])
      | .exn =>
        let r := search_attempts env poisoned (a + 1) fuel
        (r.1, bTrace ++ [SEvent.fallbackCall] ++
          (if fuel ≠ 0 then [SEvent.retryBackoff] else []) ++ r.2)

/-- `AsrockindServer.search_products`: the attempt loop started at attempt
0 with `max_retries` attempts, returning `[]` when all are exhausted. -/
def search_products (env : SearchEnv) (poisoned : Bool) (maxRetries : Nat) :
    List Product × List SEvent :=
  search_attempts env poisoned 0 maxRetries

/- ---------------------------------------------------------------------- -/
/- server.py: the call_tool boundary.                                     -/
/- ---------------------------------------------------------------------- -/

/-- The JSON response envelope built by `call_tool`. -/
structure ToolResponse where
  query : String
  total_results : Nat
  products : List Product
  source : String
  max_products_per_search : Nat
  search_method : String
deriving DecidableEq

/-- The registered tool name. -/
def searchToolName : String := "asrock_industrial_product_search"

/-- `call_tool` for the product-search tool: `queryArg` is
`arguments.get("query")` (`none` when absent); `doSearch` is the awaited
orchestrator search.  Returns the result (an error message models the
raised `ValueError`, re-raised to the caller as `McpError`) together with
the query actually passed to the search, `none` when no search was
performed.  Python truthiness makes an empty-string query take the
missing-argument branch. -/
def call_tool (name : String) (queryArg : Option String)
    (doSearch : String → List Product) (poisoned : Bool) (maxP : Nat) :
    Except String ToolResponse × Option String :=
  if name = searchToolName then
    match queryArg with
    | none => (.error "Missing required argument: query", none)
    | some q =>
      if q = "" then (.error "Missing required argument: query", none)
      else
        let q2 := pyStrip q
        if pyLen q2 < 2 then
          (.error "Search query must be at least 2 characters long", none)
        else
          let result := doSearch q2
          (.ok ⟨q2, result.length, result, "ASRock Industrial website", maxP,
                if poisoned then "Fallback only (requests)"
                else "Selenium + Fallback (requests)"⟩,
           some q2)
  else (.error ("Unknown tool: " ++ name), none)

/- ---------------------------------------------------------------------- -/
/- Concrete instances used by witnesses and counterexamples.              -/
/- ---------------------------------------------------------------------- -/

/-- A concrete product. -/
def prod1 : Product :=
  ⟨"SBC-230 Single Board Computer", "https://www.asrockind.com/en-gb/SBC-230", []⟩

/-- An environment whose browser path finds one product on every attempt. -/
def env1 : SearchEnv := ⟨fun _ => ScrapeOutcome.ok [prod1], fun _ => ScrapeOutcome.exn⟩

/-- An environment where both paths return empty lists without raising. -/
def envBothEmpty : SearchEnv := ⟨fun _ => ScrapeOutcome.ok [], fun _ => ScrapeOutcome.ok []⟩

/-- An environment where the browser path is empty and the fallback raises. -/
def envExn : SearchEnv := ⟨fun _ => ScrapeOutcome.ok [], fun _ => ScrapeOutcome.exn⟩

/-- A search implementation that finds nothing. -/
def doSearchNone : String → List Product := fun _ => []

/-- A page with one spec table whose single row has first cell
`"specification"`. -/
def docSpecRow : List Block := [Block.table "table-spec" [["specification", "x"]]]

/-- A page with a category heading followed by one spec table. -/
def docCat : List Block :=
  [Block.heading 3 "title-sub" "System",
   Block.table "table-spec" [["CPU", "Intel Atom x6425E"]]]

/-- A page with no spec table and one short description block. -/
def docDesc : List Block :=
  [Block.descr "description" "this is a product description text"]

/- ---------------------------------------------------------------------- -/
/- Helper lemmas.                                                         -/
/- ---------------------------------------------------------------------- -/

theorem enumFilterMap_length_le {α β : Type} (f : Nat → α → Option β) :
    ∀ (l : List α) (i : Nat), (enumFilterMap f i l).length ≤ l.length := by
  intro l
  induction l with
  | nil => intro i; simp [enumFilterMap]
  | cons x xs ih =>
    intro i
    simp only [enumFilterMap]
    cases hfx : f i x with
    | some b =>
      simp only [List.length_cons]
      exact Nat.succ_le_succ (ih (i + 1))
    | none => exact Nat.le_succ_of_le (ih (i + 1))

theorem mem_extractRows {cat : String} {rows : List (List String)}
    {k v : String} (h : (k, v) ∈ extractRows cat rows) :
    ∃ cells, cells ∈ rows ∧ 2 ≤ cells.length ∧
      pyStrip (cells.headD "") ≠ "" ∧ pyStrip ((cells.drop 1).headD "") ≠ "" ∧
      k = (if cat ≠ "" then cat ++ " - " ++ pyStrip (cells.headD "")
           else pyStrip (cells.headD "")) ∧
      v = pyStrip ((cells.drop 1).headD "") := by
  unfold extractRows at h
  rw [List.mem_filterMap] at h
  obtain ⟨cells, hc, hf⟩ := h
  refine ⟨cells, hc, ?_⟩
  simp only at hf
  split at hf
  case isTrue h2 =>
    split at hf
    case isTrue hkv =>
      rw [Option.some.injEq, Prod.mk.injEq] at hf
      exact ⟨h2, hkv.1, hkv.2, hf.1.symm, hf.2.symm⟩
    case isFalse => exact absurd hf (by simp)
  case isFalse => exact absurd hf (by simp)

theorem mem_extractRowsSimple {cat : String} {rows : List (List String)}
    {k v : String} (h : (k, v) ∈ extractRowsSimple cat rows) :
    ∃ cells, cells ∈ rows ∧ 2 ≤ cells.length ∧
      pyStrip (cells.headD "") ≠ "" ∧ pyStrip ((cells.drop 1).headD "") ≠ "" ∧
      pyLower (pyStrip (cells.headD "")) ≠ "specification" ∧
      pyLower (pyStrip (cells.headD "")) ≠ "feature" ∧
      k = (if cat ≠ "" then cat ++ " - " ++ pyStrip (cells.headD "")
           else pyStrip (cells.headD "")) ∧
      v = pyStrip ((cells.drop 1).headD "") := by
  unfold extractRowsSimple at h
  rw [List.mem_filterMap] at h
  obtain ⟨cells, hc, hf⟩ := h
  refine ⟨cells, hc, ?_⟩
  simp only at hf
  split at hf
  case isTrue h2 =>
    split at hf
    case isTrue hkv =>
      rw [Option.some.injEq, Prod.mk.injEq] at hf
      exact ⟨h2, hkv.1, hkv.2.1, hkv.2.2.1, hkv.2.2.2, hf.1.symm, hf.2.symm⟩
    case isFalse => exact absurd hf (by simp)
  case isFalse => exact absurd hf (by simp)

theorem mem_extract_specifications {doc : List Block} {k v : String}
    (h : (k, v) ∈ extract_specifications doc) :
    ∃ cat rows, (cat, rows) ∈ serverTables doc ∧ (k, v) ∈ extractRows cat rows := by
  unfold extract_specifications at h
  rw [List.mem_flatten] at h
  obtain ⟨s, hs, hmem⟩ := h
  rw [List.mem_map] at hs
  obtain ⟨p, hp, rfl⟩ := hs
  exact ⟨p.1, p.2, by simpa using hp, hmem⟩

theorem mem_extract_specifications_simple {doc : List Block} {k v : String}
    (h : (k, v) ∈ extract_specifications_simple doc) :
    k = "Description" ∨
      ∃ cat rows, (cat, rows) ∈ fallbackTables doc ∧
        (k, v) ∈ extractRowsSimple cat rows := by
  unfold extract_specifications_simple at h
  by_cases hs : fallbackTableSpecs doc = []
  · rw [if_pos hs] at h
    cases hfd : firstDescText doc with
    | none => rw [hfd] at h; simp at h
    | some t =>
      rw [hfd] at h
      simp only [List.mem_singleton, Prod.mk.injEq] at h
      exact Or.inl h.1
  · rw [if_neg hs] at h
    right
    unfold fallbackTableSpecs at h
    rw [List.mem_flatten] at h
    obtain ⟨s, hsm, hmem⟩ := h
    rw [List.mem_map] at hsm
    obtain ⟨p, hp, rfl⟩ := hsm
    exact ⟨p.1, p.2, by simpa using hp, hmem⟩

theorem applyDriverOp_preserves_failed (op : DriverOp) (s : DriverState)
    (h : s.failed = true) : (applyDriverOp op s).failed = true := by
  cases op with
  | setupOp l => simp [applyDriverOp, setup_driver, h]
  | ensureOp l a =>
    simp [applyDriverOp, ensure_driver, is_driver_alive, setup_driver, h]
  | getOp l a n m => simp [applyDriverOp, safe_get, h]
  | cleanupOp => simp [applyDriverOp, cleanup_driver, h]

theorem runDriverOps_preserves_failed (ops : List DriverOp) :
    ∀ s : DriverState, s.failed = true → (runDriverOps ops s).failed = true := by
  induction ops with
  | nil => intro s h; exact h
  | cons op rest ih =>
    intro s h
    exact ih (applyDriverOp op s) (applyDriverOp_preserves_failed op s h)

theorem fallbackTablesGo_eq_nil (doc : List Block) :
    ∀ h3 h2 h4 : Option String, (∀ b ∈ doc, isFallbackSpecTable b = false) →
      fallbackTablesGo h3 h2 h4 doc = [] := by
  induction doc with
  | nil => intro h3 h2 h4 _; rfl
  | cons b rest ih =>
    intro h3 h2 h4 hall
    have hrest : ∀ b ∈ rest, isFallbackSpecTable b = false := fun x hx =>
      hall x (List.mem_cons_of_mem b hx)
    cases b with
    | heading lvl cls text =>
      simp only [fallbackTablesGo]
      split_ifs <;> exact ih _ _ _ hrest
    | table cls rows =>
      have hb := hall (Block.table cls rows) (List.mem_cons_self _ _)
      simp only [isFallbackSpecTable] at hb
      simp only [fallbackTablesGo, hb]
      exact ih _ _ _ hrest
    | descr cls text =>
      simp only [fallbackTablesGo]
      exact ih _ _ _ hrest

/- ---------------------------------------------------------------------- -/
/- Claim theorems.                                                        -/
/- ---------------------------------------------------------------------- -/

/-- C1: on any attempt of the orchestrator loop with a live (not poisoned)
browser client, when the browser scraper returns a non-empty product list
the loop returns exactly that list, and the whole remaining trace consists
of the pre-search delay and the browser invocation only: the fallback
scraper is not invoked on that attempt and no further attempt happens. -/
theorem browser_short_circuit (env : SearchEnv) (a fuel : Nat)
    (ps : List Product) (hb : env.browser a = ScrapeOutcome.ok ps)
    (hne : ps ≠ []) :
    search_attempts env false a (fuel + 1) =
      (ps, [SEvent.searchDelay, SEvent.browserCall]) := by
  cases ps with
  | nil => exact absurd rfl hne
  | cons p l => simp [search_attempts, hb]

/-- Witness for C1 at a concrete environment. -/
theorem browser_short_circuit_witness :
    search_attempts env1 false 0 2 =
      ([prod1], [SEvent.searchDelay, SEvent.browserCall]) :=
  browser_short_circuit env1 0 1 [prod1] rfl (by decide)

/-- C2: a tool call to the product-search tool whose query argument is
missing or strips to fewer than 2 characters yields a caller-visible error
and never invokes the search (hence no scraping or network activity). -/
theorem invalid_query_rejected (queryArg : Option String)
    (doSearch : String → List Product) (p : Bool) (maxP : Nat)
    (h : queryArg = none ∨ ∃ q, queryArg = some q ∧ pyLen (pyStrip q) < 2) :
    (∃ msg, (call_tool searchToolName queryArg doSearch p maxP).1 =
      Except.error msg) ∧
    (call_tool searchToolName queryArg doSearch p maxP).2 = none := by
  rcases h with h | ⟨q, rfl, hq⟩
  · subst h
    exact ⟨⟨"Missing required argument: query", by simp [call_tool]⟩,
      by simp [call_tool]⟩
  · by_cases hq0 : q = ""
    · subst hq0
      exact ⟨⟨"Missing required argument: query", by simp [call_tool]⟩,
        by simp [call_tool]⟩
    · refine ⟨⟨"Search query must be at least 2 characters long", ?_⟩, ?_⟩ <;>
        simp [call_tool, hq0, hq]

/-- Witness for C2 at a one-character query. -/
theorem invalid_query_rejected_witness :
    (∃ msg, (call_tool searchToolName (some "a") doSearchNone false 3).1 =
      Except.error msg) ∧
    (call_tool searchToolName (some "a") doSearchNone false 3).2 = none :=
  invalid_query_rejected (some "a") doSearchNone false 3
    (Or.inr ⟨"a", rfl, by decide⟩)

/-- C3: every response envelope the tool produces satisfies
`total_results = products.length`. -/
theorem total_results_matches (name : String) (queryArg : Option String)
    (doSearch : String → List Product) (p : Bool) (maxP : Nat)
    (r : ToolResponse)
    (h : (call_tool name queryArg doSearch p maxP).1 = Except.ok r) :
    r.total_results = r.products.length := by
  unfold call_tool at h
  split at h
  · cases queryArg with
    | none => simp at h
    | some q =>
      simp only at h
      split at h
      · simp at h
      · split at h
        · simp at h
        · rw [Except.ok.injEq] at h
          rw [← h]
  · simp at h

/-- Witness for C3 at a concrete valid call. -/
theorem total_results_matches_witness :
    (ToolResponse.mk "ab" 0 [] "ASRock Industrial website" 3
      "Selenium + Fallback (requests)").total_results =
    (ToolResponse.mk "ab" 0 [] "ASRock Industrial website" 3
      "Selenium + Fallback (requests)").products.length :=
  total_results_matches searchToolName (some "ab") doSearchNone false 3
    (ToolResponse.mk "ab" 0 [] "ASRock Industrial website" 3
      "Selenium + Fallback (requests)") rfl

/-- C4: a launch that raises poisons the state; from any poisoned state,
`setup_driver` returns false with no launch attempt and an unchanged state,
`safe_get` returns false immediately with an empty trace and an unchanged
state, and no sequence of manager operations ever clears the flag. -/
theorem poisoned_permanent (s : DriverState) (h : s.failed = true) :
    (∀ s2 : DriverState, (setup_driver LaunchOutcome.exn s2).2.1.failed = true) ∧
    (∀ l, setup_driver l s = (false, s, [])) ∧
    (∀ launch alive nav maxR,
      safe_get launch alive nav s maxR = (false, s, [])) ∧
    (∀ ops, (runDriverOps ops s).failed = true) := by
  refine ⟨?_, ?_, ?_, ?_⟩
  · intro s2
    by_cases h2 : s2.failed = true
    · simp [setup_driver, h2]
    · simp only [Bool.not_eq_true] at h2
      simp [setup_driver, h2]
  · intro l; simp [setup_driver, h]
  · intro launch alive nav maxR; simp [safe_get, h]
  · intro ops; exact runDriverOps_preserves_failed ops s h

/-- Witness for C4 at a concrete poisoned state. -/
theorem poisoned_permanent_witness :
    setup_driver LaunchOutcome.success ⟨false, true⟩ =
      (false, (⟨false, true⟩ : DriverState), []) :=
  (poisoned_permanent ⟨false, true⟩ rfl).2.1 LaunchOutcome.success

/-- C5: on both scraping paths the returned product list never holds more
than `max_products_per_search` products. -/
theorem product_count_capped (base : String) (page : SearchPage)
    (detail detail2 : Nat → Option (List Block)) (pageOk noResult : Bool)
    (links : List ProductLink) (maxP : Nat) :
    (scrape_search_results base page detail maxP).length ≤ maxP ∧
    (fallback_search_products base pageOk noResult links detail2 maxP).length
      ≤ maxP := by
  constructor
  · unfold scrape_search_results
    split_ifs
    · simp
    · simp
    · simp
    · refine le_trans (enumFilterMap_length_le _ _ _) ?_
      rw [List.length_take]
      omega
  · unfold fallback_search_products
    split_ifs
    · simp
    · simp
    · refine le_trans (enumFilterMap_length_le _ _ _) ?_
      rw [List.length_take]
      omega

/-- C10: for every successful product-search tool call, the echoed query is
the stripped caller input, the search is invoked with exactly that stripped
query, and an input with no surrounding whitespace is echoed verbatim. -/
theorem query_echo_trimmed (q : String) (doSearch : String → List Product)
    (p : Bool) (maxP : Nat) (r : ToolResponse)
    (h : (call_tool searchToolName (some q) doSearch p maxP).1 = Except.ok r) :
    r.query = pyStrip q ∧
    (call_tool searchToolName (some q) doSearch p maxP).2 = some (pyStrip q) ∧
    (pyStrip q = q → r.query = q) := by
  unfold call_tool at h ⊢
  rw [if_pos rfl] at h ⊢
  simp only at h ⊢
  split at h
  · simp at h
  · split at h
    · simp at h
    · rw [Except.ok.injEq] at h
      rename_i hq0 hlen
      refine ⟨by rw [← h], ?_, fun ht => by rw [← h]; exact ht⟩
      rw [if_neg hq0, if_neg hlen]

/-- Witness for C10 at a whitespace-padded query. -/
theorem query_echo_trimmed_witness :
    (ToolResponse.mk "ab" 0 [] "ASRock Industrial website" 3
      "Selenium + Fallback (requests)").query = pyStrip " ab " ∧
    (call_tool searchToolName (some " ab ") doSearchNone false 3).2 =
      some (pyStrip " ab ") ∧
    (pyStrip " ab " = " ab " →
      (ToolResponse.mk "ab" 0 [] "ASRock Industrial website" 3
        "Selenium + Fallback (requests)").query = " ab ") :=
  query_echo_trimmed " ab " doSearchNone false 3
    (ToolResponse.mk "ab" 0 [] "ASRock Industrial website" 3
      "Selenium + Fallback (requests)") rfl

/-- C6 counterexample: with two attempts configured and both paths
returning empty lists without raising on every attempt, the full trace
holds no doubled-backoff sleep at all between the attempts, contradicting
the claim that an empty/failed pair of results on a non-final attempt is
followed by the doubled backoff. -/
theorem no_backoff_when_both_empty_cex :
    envBothEmpty.browser 0 = ScrapeOutcome.ok [] ∧
    envBothEmpty.fallback 0 = ScrapeOutcome.ok [] ∧
    search_products envBothEmpty false 2 =
      ([], [SEvent.searchDelay, SEvent.browserCall, SEvent.fallbackCall,
            SEvent.searchDelay, SEvent.browserCall, SEvent.fallbackCall]) ∧
    SEvent.retryBackoff ∉ (search_products envBothEmpty false 2).2 := by
  decide

/-- C6 as amended: the doubled-backoff sleep appears in a search trace only
when some attempt ended in an exception escaping to the outer handler (a
raising fallback call); conversely a raising fallback call on a non-final
attempt does produce the doubled-backoff sleep.  Both paths merely
returning empty lists proceeds to the next attempt without it. -/
theorem backoff_only_after_exception :
    (∀ (env : SearchEnv) (p : Bool) (a fuel : Nat),
      SEvent.retryBackoff ∈ (search_attempts env p a fuel).2 →
      ∃ i, env.fallback i = ScrapeOutcome.exn) ∧
    (∀ (env : SearchEnv) (a fuel : Nat),
      env.fallback a = ScrapeOutcome.exn →
      SEvent.retryBackoff ∈ (search_attempts env true a (fuel + 2)).2) := by
  constructor
  · intro env p a fuel
    induction fuel generalizing a with
    | zero => intro h; simp [search_attempts] at h
    | succ n ih =>
      intro h
      simp only [search_attempts] at h
      rcases hf : env.fallback a with qs | _
      case exn => exact ⟨a, hf⟩
      case ok =>
        rw [hf] at h
        cases p with
        | true =>
          simp only [if_pos rfl, reduceIte] at h
          cases qs with
          | nil =>
            simp only [List.isEmpty_nil, reduceIte, List.mem_append,
              List.mem_singleton, reduceCtorEq, false_or] at h
            exact ih (a + 1) h
          | cons q0 qrest => simp at h
        | false =>
          simp only [reduceIte] at h
          rcases hb : env.browser a with ps | _
          · rw [hb] at h
            cases ps with
            | nil =>
              simp only [List.isEmpty_nil, reduceIte] at h
              cases qs with
              | nil =>
                simp at h
                exact ih (a + 1) h
              | cons q0 qrest => simp at h
            | cons p0 prest => simp at h
          · rw [hb] at h
            cases qs with
            | nil =>
              simp at h
              exact ih (a + 1) h
            | cons q0 qrest => simp at h
  · intro env a fuel hf
    simp [search_attempts, hf]

/-- Witness for the amended C6 at a concrete raising environment. -/
theorem backoff_only_after_exception_witness :
    ∃ i, envExn.fallback i = ScrapeOutcome.exn :=
  backoff_only_after_exception.1 envExn true 0 2 (by decide)

/-- C7 counterexample: the browser-driven extractor does not skip a row
whose first cell reads "specification"; the entry is produced. -/
theorem spec_row_not_skipped_cex :
    ("specification", "x") ∈ extract_specifications docSpecRow ∧
    extract_specifications docSpecRow = [("specification", "x")] := by
  decide

/-- C7 as amended: in the browser-driven extraction a table row contributes
an entry only if it has at least 2 cells; the skip of rows whose first cell
reads "specification" or "feature" exists only in the fallback extraction,
whose entries all come from rows with at least 2 cells and a first cell
that lowercases to neither word. -/
theorem row_filter_amended :
    (∀ (doc : List Block) (k v : String), (k, v) ∈ extract_specifications doc →
      ∃ cat rows cells, (cat, rows) ∈ serverTables doc ∧ cells ∈ rows ∧
        2 ≤ cells.length) ∧
    (∀ (cat : String) (rows : List (List String)) (k v : String),
      (k, v) ∈ extractRowsSimple cat rows →
      ∃ cells ∈ rows, 2 ≤ cells.length ∧
        pyLower (pyStrip (cells.headD "")) ≠ "specification" ∧
        pyLower (pyStrip (cells.headD "")) ≠ "feature") := by
  constructor
  · intro doc k v h
    obtain ⟨cat, rows, htab, hrow⟩ := mem_extract_specifications h
    obtain ⟨cells, hc, h2, _⟩ := mem_extractRows hrow
    exact ⟨cat, rows, cells, htab, hc, h2⟩
  · intro cat rows k v h
    obtain ⟨cells, hc, h2, _, _, hspec, hfeat, _⟩ := mem_extractRowsSimple h
    exact ⟨cells, hc, h2, hspec, hfeat⟩

/-- Witness for the amended C7 at a concrete page. -/
theorem row_filter_amended_witness :
    ∃ cat rows cells, (cat, rows) ∈ serverTables docCat ∧ cells ∈ rows ∧
      2 ≤ cells.length :=
  row_filter_amended.1 docCat "System - CPU" "Intel Atom x6425E" (by decide)

/-- C8: every entry of either extraction path whose derived category text
is nonempty has key exactly category, " - ", field, and every entry whose
derived category is empty has key exactly the field (the fallback
description entry is the separate fixed key "Description"). -/
theorem spec_key_format :
    (∀ (doc : List Block) (k v : String), (k, v) ∈ extract_specifications doc →
      ∃ cat rows cells, (cat, rows) ∈ serverTables doc ∧ cells ∈ rows ∧
        ((cat ≠ "" ∧ k = cat ++ " - " ++ pyStrip (cells.headD "")) ∨
         (cat = "" ∧ k = pyStrip (cells.headD "")))) ∧
    (∀ (doc : List Block) (k v : String),
      (k, v) ∈ extract_specifications_simple doc →
      k = "Description" ∨
        ∃ cat rows cells, (cat, rows) ∈ fallbackTables doc ∧ cells ∈ rows ∧
          ((cat ≠ "" ∧ k = cat ++ " - " ++ pyStrip (cells.headD "")) ∨
           (cat = "" ∧ k = pyStrip (cells.headD "")))) := by
  constructor
  · intro doc k v h
    obtain ⟨cat, rows, htab, hrow⟩ := mem_extract_specifications h
    obtain ⟨cells, hc, _, _, _, hk, _⟩ := mem_extractRows hrow
    refine ⟨cat, rows, cells, htab, hc, ?_⟩
    by_cases hcat : cat = ""
    · exact Or.inr ⟨hcat, by rw [hk, if_neg (not_not_intro hcat)]⟩
    · exact Or.inl ⟨hcat, by rw [hk, if_pos hcat]⟩
  · intro doc k v h
    rcases mem_extract_specifications_simple h with hd | ⟨cat, rows, htab, hrow⟩
    · exact Or.inl hd
    · right
      obtain ⟨cells, hc, _, _, _, _, _, hk, _⟩ := mem_extractRowsSimple hrow
      refine ⟨cat, rows, cells, htab, hc, ?_⟩
      by_cases hcat : cat = ""
      · exact Or.inr ⟨hcat, by rw [hk, if_neg (not_not_intro hcat)]⟩
      · exact Or.inl ⟨hcat, by rw [hk, if_pos hcat]⟩

/-- Witness for C8 at a page with a category heading. -/
theorem spec_key_format_witness :
    ∃ cat rows cells, (cat, rows) ∈ serverTables docCat ∧ cells ∈ rows ∧
      ((cat ≠ "" ∧ "System - CPU" = cat ++ " - " ++ pyStrip (cells.headD "")) ∨
       (cat = "" ∧ "System - CPU" = pyStrip (cells.headD ""))) :=
  spec_key_format.1 docCat "System - CPU" "Intel Atom x6425E" (by decide)

/-- C9: when the page holds no table matching the fallback spec-table
selector and a qualifying description block is present with stripped text
`t`, the fallback extraction returns exactly one `Description` entry whose
value is `t` truncated to 500 characters with an appended "..." when
longer than 500 characters, and `t` in full otherwise. -/
theorem description_truncation (doc : List Block) (t : String)
    (hnt : ∀ b ∈ doc, isFallbackSpecTable b = false)
    (hd : firstDescText doc = some t) :
    extract_specifications_simple doc =
      [("Description", if 500 < pyLen t then pyTake 500 t ++ "..." else t)] := by
  have htab : fallbackTables doc = [] :=
    fallbackTablesGo_eq_nil doc none none none hnt
  have hspecs : fallbackTableSpecs doc = [] := by
    unfold fallbackTableSpecs
    rw [htab]
    rfl
  unfold extract_specifications_simple
  rw [if_pos hspecs, hd]

/-- Witness for C9 at a table-free page with a short description. -/
theorem description_truncation_witness :
    extract_specifications_simple docDesc =
      [("Description",
        if 500 < pyLen "this is a product description text" then
          pyTake 500 "this is a product description text" ++ "..."
        else "this is a product description text")] :=
  description_truncation docDesc "this is a product description text"
    (by decide) (by decide)

end Asrockind
